import Mathlib

/-!
A shallow embedding of the `OllamaChat` session manager (ollama_chat.py).

Conventions of the embedding:
* File I/O is modelled by an explicit `FileStore` (path to read result);
  writing a session file is a function update of the store.
* `datetime.now().isoformat()` is an opaque timestamp string passed in as
  a `now` argument.
* Console printing (rich/plain/silent) is pure presentation and is not
  modelled; "reports an error" corresponds to a `false`/`none` result.
* Python `\w` and `str.lower` are modelled over ASCII characters, which
  covers all inputs considered here.
-/

/-- One conversation turn: a dict with keys role and content. -/
structure Message where
  role : String
  content : String
deriving DecidableEq, Repr

/-- One context item as built by `add_context`. -/
structure ContextItem where
  title : String
  content : String
  type : String
  added_at : String
deriving DecidableEq, Repr

/-- The metadata dict written by `OllamaChat._save`. -/
structure Metadata where
  model : String
  project : Option String
  created : String
  last_modified : String
  message_count : Nat
  context_data : List ContextItem
deriving DecidableEq, Repr

/-- The whole document written by `OllamaChat._save`. -/
structure SessionDoc where
  metadata : Metadata
  messages : List Message
deriving DecidableEq, Repr

/-- Parsed-JSON view of a session file's metadata: every key the code reads
via `.get` with a default is optional. -/
structure MetaJson where
  model : Option String
  last_modified : Option String
  context_data : Option (List ContextItem)
deriving DecidableEq, Repr

/-- Parsed-JSON view of a session file, keys optional as read via `.get`. -/
structure JsonDoc where
  metadata : Option MetaJson
  messages : Option (List Message)
deriving DecidableEq, Repr

/-- Serialize-then-parse of a saved document: every field present. -/
def docToJson (d : SessionDoc) : JsonDoc :=
  { metadata := some { model := some d.metadata.model,
                       last_modified := some d.metadata.last_modified,
                       context_data := some d.metadata.context_data },
    messages := some d.messages }

/-- Result of opening and JSON-parsing one file: `fileError` covers a
missing, unreadable, or syntactically invalid file (the exception path). -/
inductive ReadResult where
  | ok (data : JsonDoc)
  | fileError (msg : String)
deriving DecidableEq, Repr

/-- The filesystem as seen through open/json.load, path to result. -/
def FileStore : Type := String → ReadResult

/-- In-memory state of an `OllamaChat` instance (the fields the core
session logic reads and writes). -/
structure ChatState where
  model : String
  conversations_dir : String
  project_name : Option String
  messages : List Message
  context_data : List ContextItem
  filepath : Option String
  created_time : Option String
deriving Repr

/-- Models `self.project_dir`: os.path.join(conversations_dir, project_name or 'default'). -/
def projectDir (s : ChatState) : String :=
  s.conversations_dir ++ "/" ++ s.project_name.getD "default"

/-- os.path.join(self.project_dir, filename), as used by `load_session`. -/
def sessionPath (s : ChatState) (filename : String) : String :=
  projectDir s ++ "/" ++ filename

/-- Models `OllamaChat._generate_filepath`: custom name or timestamp filename. -/
def generate_filepath (s : ChatState) (custom_name : Option String) (now : String) : String :=
  projectDir s ++ "/" ++ custom_name.getD now ++ ".json"

/-- The metadata dict assembled inside `OllamaChat._save`. -/
def mkMetadata (s : ChatState) (now : String) : Metadata :=
  { model := s.model,
    project := s.project_name,
    created := s.created_time.getD now,
    last_modified := now,
    message_count := s.messages.length,
    context_data := s.context_data }

/-- The `data_to_save` document assembled inside `OllamaChat._save`. -/
def buildDoc (s : ChatState) (now : String) : SessionDoc :=
  { metadata := mkMetadata s now, messages := s.messages }

/-- Models `OllamaChat._save`: no-op without an active filepath, otherwise a
whole-document overwrite of that path in the store. -/
def saveToStore (s : ChatState) (now : String) (store : FileStore) : FileStore :=
  match s.filepath with
  | none => store
  | some fp => fun p => if p = fp then ReadResult.ok (docToJson (buildDoc s now)) else store p

/-- The empty dict default of `data.get('metadata', {})`. -/
def emptyMetaJson : MetaJson :=
  { model := none, last_modified := none, context_data := none }

/-- Models `OllamaChat.load_session`: sets filepath, reads and parses the file;
on success replaces messages and context_data from the document, on any
exception resets messages, context_data and filepath and returns False. -/
def load_session (s : ChatState) (filename : String) (store : FileStore) :
    ChatState × Bool :=
  let fp := sessionPath s filename
  match store fp with
  | ReadResult.ok data =>
      ({ s with filepath := some fp,
                messages := data.messages.getD [],
                context_data := (data.metadata.getD emptyMetaJson).context_data.getD [] },
       true)
  | ReadResult.fileError _ =>
      ({ s with filepath := none, messages := [], context_data := [] }, false)

/-- Models `OllamaChat.add_message`: role whitelist check, append, optional save.
Returns the new state, the boolean result, and the possibly updated store. -/
def add_message (s : ChatState) (role content : String) (save : Bool)
    (now : String) (store : FileStore) : ChatState × Bool × FileStore :=
  if role = "user" ∨ role = "assistant" ∨ role = "system" then
    let s1 := { s with messages := s.messages ++ [{ role := role, content := content }] }
    if save ∧ s1.filepath.isSome then (s1, true, saveToStore s1 now store)
    else (s1, true, store)
  else (s, false, store)

/-- Models `OllamaChat.add_context`: append a context item, then add the
synthesized system message with save=True. -/
def add_context (s : ChatState) (title content context_type : String)
    (now : String) (store : FileStore) : ChatState × FileStore :=
  let context_item : ContextItem :=
    { title := title, content := content, type := context_type, added_at := now }
  let s1 := { s with context_data := s.context_data ++ [context_item] }
  let context_msg := "Context - " ++ title ++ ":\n" ++ content
  let r := add_message s1 "system" context_msg true now store
  (r.1, r.2.2)

/-- Models `OllamaChat.start_new_session`: fresh filepath, cleared messages and
context, optional system prompt (save=False), then an immediate save. -/
def start_new_session (s : ChatState) (system_prompt session_name : Option String)
    (now : String) (store : FileStore) : ChatState × FileStore :=
  let s1 := { s with filepath := some (generate_filepath s session_name now),
                     messages := [], context_data := [],
                     created_time := some now }
  let s2 :=
    match system_prompt with
    | some p => (add_message s1 "system" p false now store).1
    | none => s1
  (s2, saveToStore s2 now store)

/-- Models `OllamaChat.switch_to_project`: new namespace, state reset, no file. -/
def switch_to_project (s : ChatState) (project : String) : ChatState :=
  { s with project_name := some project, messages := [], context_data := [],
           filepath := none }

/-- Outcome of the `ollama.chat` streaming call: the ordered chunk texts on
success, or an `ollama.ResponseError`, or any other exception. -/
inductive BackendResult where
  | ok (chunks : List String)
  | respError (error : String)
  | exnError (msg : String)
deriving DecidableEq, Repr

/-- The rollback on the failure path of `send`: pop the last message only
if the list is nonempty and its last entry has role user. -/
def rollbackUser (msgs : List Message) : List Message :=
  match msgs.getLast? with
  | some m => if m.role = "user" then msgs.dropLast else msgs
  | none => msgs

/-- Models `OllamaChat.send`: requires an active session; appends the user turn,
runs the backend; on success accumulates chunks, appends the assistant
turn and saves; on either failure kind rolls back the user turn and
returns None without saving. Returns (state, result, store). -/
def send (s : ChatState) (user_input : String) (backend : BackendResult)
    (now : String) (store : FileStore) : ChatState × Option String × FileStore :=
  match s.filepath with
  | none => (s, none, store)
  | some _ =>
    let s1 := { s with messages := s.messages ++ [({ role := "user", content := user_input } : Message)] }
    match backend with
    | BackendResult.ok chunks =>
        let full_response := String.join chunks
        let s2 := { s1 with messages := s1.messages ++ [({ role := "assistant", content := full_response } : Message)] }
        (s2, some full_response, saveToStore s2 now store)
    | BackendResult.respError _ =>
        ({ s1 with messages := rollbackUser s1.messages }, none, store)
    | BackendResult.exnError _ =>
        ({ s1 with messages := rollbackUser s1.messages }, none, store)

/-- The stats dict of `get_session_stats` (nonempty case). -/
structure SessionStats where
  total_messages : Nat
  user_messages : Nat
  assistant_messages : Nat
  system_messages : Nat
  total_characters : Nat
  context_items : Nat
deriving DecidableEq, Repr

/-- Models `OllamaChat.get_session_stats`: empty dict for an empty session,
otherwise the six counters. -/
def get_session_stats (s : ChatState) : Option SessionStats :=
  if s.messages = [] then none
  else some
    { total_messages := s.messages.length,
      user_messages := (s.messages.filter fun m => m.role = "user").length,
      assistant_messages := (s.messages.filter fun m => m.role = "assistant").length,
      system_messages := (s.messages.filter fun m => m.role = "system").length,
      total_characters := (s.messages.map fun m => m.content.length).sum,
      context_items := s.context_data.length }

/-- The backtick character delimiting fenced code regions. -/
def tick : Char := Char.ofNat 96

/-- Python regex `\w` over ASCII: letters, digits, underscore. -/
def isWordChar (c : Char) : Bool := c.isAlphanum || c = '_'

/-- Leftmost occurrence of a triple-backtick fence: returns the text
before the fence and the text after it, or none when no fence occurs. -/
def findFence : List Char → Option (List Char × List Char)
  | [] => none
  | c :: rest =>
    if c = tick ∧ rest.take 2 = [tick, tick] then some ([], rest.drop 2)
    else
      match findFence rest with
      | some pq => some (c :: pq.1, pq.2)
      | none => none

/-- Whitespace stripped by Python `str.strip` (ASCII). -/
def pySpace (c : Char) : Bool :=
  c = ' ' || c = '\t' || c = '\n' || c = '\r' || c = Char.ofNat 11 || c = Char.ofNat 12

/-- Python `str.strip` on a character list. -/
def pyStripChars (l : List Char) : List Char :=
  ((l.dropWhile pySpace).reverse.dropWhile pySpace).reverse

/-- Python `str.strip`. -/
def pyStrip (s : String) : String := String.mk (pyStripChars s.toList)

/-- One entry of the `code_blocks` result list. -/
structure CodeBlock where
  language : String
  code : String
deriving DecidableEq, Repr

/-- Models `re.findall` for the pattern of the source — triple backtick, optional
greedy word-character tag, optional newline, lazy body up to the next
triple backtick — scanning left to right without overlap. Since the body
may contain any character except a fence and the tag only word characters,
maximal munch plus earliest closing fence agrees with the regex. The fuel
argument bounds recursion depth; each step consumes at least one fence,
so an initial fuel of the text length always suffices. -/
def findallFence : Nat → List Char → List (List Char × List Char)
  | 0, _ => []
  | Nat.succ fuel, s =>
    match findFence s with
    | none => []
    | some pr =>
      let rest := pr.2
      let lang := rest.takeWhile isWordChar
      let rest1 := rest.dropWhile isWordChar
      let rest2 :=
        match rest1 with
        | c :: t => if c = '\n' then t else rest1
        | [] => rest1
      match findFence rest2 with
      | none => []
      | some br => (lang, br.1) :: findallFence fuel br.2

/-- The regex-and-build part of `extract_code_blocks` applied to a given
text: language defaults to "text" for an untagged region, tag and body
are stripped. -/
def extract_code_blocks_text (text : String) : List CodeBlock :=
  (findallFence text.toList.length text.toList).map fun lc =>
    { language := if lc.1 = [] then "text" else pyStrip (String.mk lc.1),
      code := pyStrip (String.mk lc.2) }

/-- Models `OllamaChat.extract_code_blocks`: with no text argument, uses the last
message only when its role is assistant, otherwise returns []. -/
def extract_code_blocks (s : ChatState) (text : Option String) : List CodeBlock :=
  match text with
  | some t => extract_code_blocks_text t
  | none =>
    match s.messages.getLast? with
    | none => []
    | some m => if m.role = "assistant" then extract_code_blocks_text m.content else []

/-- Whether the first list is an initial segment of the second. -/
def leadsWith : List Char → List Char → Bool
  | [], _ => true
  | _ :: _, [] => false
  | p :: ps, h :: hs => p = h && leadsWith ps hs

/-- Index search: first position at or after `i` where `pat` starts. -/
def subPosAux (pat : List Char) : List Char → Nat → Option Nat
  | [], i => if leadsWith pat [] then some i else none
  | c :: t, i => if leadsWith pat (c :: t) then some i else subPosAux pat t (i + 1)

/-- Python `str.find`: position of the first occurrence, none for -1. -/
def pyFind (hay pat : String) : Option Nat := subPosAux pat.toList hay.toList 0

/-- Python `str.lower` over ASCII. -/
def pyLower (s : String) : String := String.mk (s.toList.map Char.toLower)

/-- Python `pat in hay` substring test. -/
def containsSub (hay pat : String) : Bool := (pyFind hay pat).isSome

/-- Models `OllamaChat._get_search_snippet` with its default context_chars=100:
window of 50 characters either side of the first (case-insensitive)
occurrence, ellipsis markers when truncated. Nat subtraction realizes
the `max(0, ...)` clamp of the source. -/
def get_search_snippet (text query : String) : String :=
  let tl := text.toList
  match pyFind (pyLower text) (pyLower query) with
  | none => String.mk (tl.take 100) ++ "..."
  | some query_pos =>
    let start := query_pos - 50
    let stop := min tl.length (query_pos + 50)
    let snippet0 := String.mk ((tl.take stop).drop start)
    let snippet1 := if 0 < start then "..." ++ snippet0 else snippet0
    if stop < tl.length then snippet1 ++ "..." else snippet1

/-- One entry of the `search_messages` result list. -/
structure SearchResult where
  index : Nat
  role : String
  content : String
  snippet : String
deriving DecidableEq, Repr

/-- Models `OllamaChat.search_messages`: case-insensitive substring filter over
the enumerated messages, optionally restricted to one role. -/
def search_messages (s : ChatState) (query : String) (role : Option String) :
    List SearchResult :=
  s.messages.enum.filterMap fun im =>
    let m := im.2
    if (match role with | some r => decide (m.role = r) | none => true) &&
        containsSub (pyLower m.content) (pyLower query) then
      some { index := im.1, role := m.role, content := m.content,
             snippet := get_search_snippet m.content query }
    else none

/-- Models `OllamaChat._get_session_preview`. -/
def get_session_preview (messages : List Message) : String :=
  match messages.getLast? with
  | none => "Empty session"
  | some last_msg =>
    let content := last_msg.content
    let preview :=
      if 50 < content.length then String.mk (content.toList.take 50) ++ "..." else content
    "Last: \"" ++ preview ++ "\""

/-- One entry of `list_sessions(include_metadata=True)`; `metadata = none`
models the empty dict substituted on a read/parse failure. -/
structure SessionEntry where
  filename : String
  metadata : Option MetaJson
  preview : String
deriving DecidableEq, Repr

/-- The per-file body of the listing loop: parsed metadata and preview on
success, placeholder entry on any exception. -/
def entryOf (fr : String × ReadResult) : SessionEntry :=
  match fr.2 with
  | ReadResult.ok data =>
      { filename := fr.1, metadata := data.metadata,
        preview := get_session_preview (data.messages.getD []) }
  | ReadResult.fileError _ =>
      { filename := fr.1, metadata := none, preview := "Unable to load preview" }

/-- The sort key `x['metadata'].get('last_modified', '')`. -/
def entryKey (e : SessionEntry) : String :=
  (e.metadata.bind fun m => m.last_modified).getD ""

/-- Stable descending insertion for the final `sorted(..., reverse=True)`. -/
def insertByKeyDesc (e : SessionEntry) : List SessionEntry → List SessionEntry
  | [] => [e]
  | x :: xs => if entryKey e < entryKey x then x :: insertByKeyDesc e xs else e :: x :: xs

/-- Stable sort, newest last_modified first, as `sorted` with reverse=True. -/
def sortEntriesDesc : List SessionEntry → List SessionEntry
  | [] => []
  | x :: xs => insertByKeyDesc x (sortEntriesDesc xs)

/-- Models `OllamaChat.list_sessions(include_metadata=True)` over the directory
contents, each file given with its read-and-parse result. -/
def list_sessions_meta (files : List (String × ReadResult)) : List SessionEntry :=
  sortEntriesDesc (files.map entryOf)

/-- Messages whose role the manager recognizes. -/
def ValidRole (m : Message) : Prop :=
  m.role = "system" ∨ m.role = "user" ∨ m.role = "assistant"

instance (m : Message) : Decidable (ValidRole m) := by
  unfold ValidRole
  infer_instance

/-- A filesystem with no readable session files. -/
def sampleStore : FileStore := fun _ => ReadResult.fileError "missing"

/-- A freshly initialized manager: no messages, context, or active file. -/
def sampleState : ChatState :=
  { model := "deepseek-r1:7b", conversations_dir := "conversations",
    project_name := none, messages := [], context_data := [],
    filepath := none, created_time := none }

/-- A manager with an active session file and some state, for witnesses. -/
def activeState : ChatState :=
  { model := "deepseek-r1:7b", conversations_dir := "conversations",
    project_name := none,
    messages := [{ role := "user", content := "hi" },
                 { role := "assistant", content := "hello" }],
    context_data := [{ title := "notes", content := "alpha", type := "text",
                       added_at := "2024-01-01T00:00:00" }],
    filepath := some "conversations/default/a.json",
    created_time := some "2024-01-01T00:00:00" }

theorem rollbackUser_append_user (msgs : List Message) (c : String) :
    rollbackUser (msgs ++ [{ role := "user", content := c }]) = msgs := by
  unfold rollbackUser
  rw [List.getLast?_concat]
  simp

/-- C1: for every in-memory state whose active session file is the file of
identifier `fn`, saving and then loading `fn` reproduces the identical
ordered message list and identical context items (and load succeeds). -/
theorem save_then_load_roundtrip (s : ChatState) (fn now : String) (store : FileStore)
    (h : s.filepath = some (sessionPath s fn)) :
    (load_session s fn (saveToStore s now store)).1.messages = s.messages ∧
    (load_session s fn (saveToStore s now store)).1.context_data = s.context_data ∧
    (load_session s fn (saveToStore s now store)).2 = true := by
  unfold load_session saveToStore
  rw [h]
  simp [docToJson, buildDoc, mkMetadata]

theorem save_then_load_roundtrip_witness :
    (load_session activeState "a.json" (saveToStore activeState "t1" sampleStore)).1.messages
        = activeState.messages ∧
    (load_session activeState "a.json" (saveToStore activeState "t1" sampleStore)).1.context_data
        = activeState.context_data ∧
    (load_session activeState "a.json" (saveToStore activeState "t1" sampleStore)).2 = true :=
  save_then_load_roundtrip activeState "a.json" "t1" sampleStore (by decide)

/-- C2: with an active session, when the backend call fails (response error
or any other exception) `send` returns no result, the message list — and
hence the message count — is exactly as before the call, and the store is
untouched (nothing is saved on the failure path). -/
theorem send_failure_rollback (s : ChatState) (input now fp : String)
    (store : FileStore) (backend : BackendResult)
    (hfp : s.filepath = some fp)
    (hfail : ∀ chunks, backend ≠ BackendResult.ok chunks) :
    (send s input backend now store).2.1 = none ∧
    (send s input backend now store).1.messages = s.messages ∧
    (send s input backend now store).2.2 = store := by
  unfold send
  rw [hfp]
  cases backend with
  | ok chunks => exact absurd rfl (hfail chunks)
  | respError e => exact ⟨rfl, rollbackUser_append_user s.messages input, rfl⟩
  | exnError e => exact ⟨rfl, rollbackUser_append_user s.messages input, rfl⟩

theorem send_failure_rollback_witness :
    (send activeState "question" (BackendResult.respError "boom") "t2" sampleStore).2.1 = none ∧
    (send activeState "question" (BackendResult.respError "boom") "t2" sampleStore).1.messages
        = activeState.messages ∧
    (send activeState "question" (BackendResult.respError "boom") "t2" sampleStore).2.2
        = sampleStore :=
  send_failure_rollback activeState "question" "t2" "conversations/default/a.json"
    sampleStore (BackendResult.respError "boom") rfl (by intro chunks h; cases h)

/-- C3: for the three whitelisted roles `add_message` appends exactly the
one entry at the end, leaves prior entries and context items unchanged and
returns True; for any other role it reports an error (returns False) and
mutates nothing. -/
theorem add_message_whitelist (s : ChatState) (role content : String) (save : Bool)
    (now : String) (store : FileStore) :
    ((role = "user" ∨ role = "assistant" ∨ role = "system") →
      (add_message s role content save now store).1.messages
          = s.messages ++ [{ role := role, content := content }] ∧
      (add_message s role content save now store).1.context_data = s.context_data ∧
      (add_message s role content save now store).2.1 = true) ∧
    (¬(role = "user" ∨ role = "assistant" ∨ role = "system") →
      (add_message s role content save now store).1 = s ∧
      (add_message s role content save now store).2.1 = false ∧
      (add_message s role content save now store).2.2 = store) := by
  constructor
  · intro h
    simp only [add_message, if_pos h]
    split <;> exact ⟨rfl, rfl, rfl⟩
  · intro h
    simp [add_message, h]

theorem add_message_whitelist_witness :
    ((add_message sampleState "user" "hi" true "t" sampleStore).1.messages
        = sampleState.messages ++ [{ role := "user", content := "hi" }] ∧
      (add_message sampleState "user" "hi" true "t" sampleStore).1.context_data
        = sampleState.context_data ∧
      (add_message sampleState "user" "hi" true "t" sampleStore).2.1 = true) ∧
    ((add_message sampleState "robot" "hi" true "t" sampleStore).1 = sampleState ∧
      (add_message sampleState "robot" "hi" true "t" sampleStore).2.1 = false ∧
      (add_message sampleState "robot" "hi" true "t" sampleStore).2.2 = sampleStore) :=
  ⟨(add_message_whitelist sampleState "user" "hi" true "t" sampleStore).1 (Or.inl rfl),
   (add_message_whitelist sampleState "robot" "hi" true "t" sampleStore).2 (by decide)⟩

/-- C4: when reading the file of identifier `fn` fails (missing,
unreadable, or invalid data), `load_session` returns False and leaves the
in-memory state reset: no messages, no context items, no active file. -/
theorem load_session_error_resets (s : ChatState) (fn e : String) (store : FileStore)
    (h : store (sessionPath s fn) = ReadResult.fileError e) :
    (load_session s fn store).1.messages = [] ∧
    (load_session s fn store).1.context_data = [] ∧
    (load_session s fn store).1.filepath = none ∧
    (load_session s fn store).2 = false := by
  simp only [load_session]
  rw [h]
  exact ⟨rfl, rfl, rfl, rfl⟩

theorem load_session_error_resets_witness :
    (load_session activeState "ghost.json" sampleStore).1.messages = [] ∧
    (load_session activeState "ghost.json" sampleStore).1.context_data = [] ∧
    (load_session activeState "ghost.json" sampleStore).1.filepath = none ∧
    (load_session activeState "ghost.json" sampleStore).2 = false :=
  load_session_error_resets activeState "ghost.json" "missing" sampleStore rfl

/-- C5 counterexample: with no active session file, `add_context` does
append the context item in memory, yet the persisted store is exactly the
one from before the call — the addition is not persisted to storage, so
persistence does not always happen. -/
theorem add_context_without_session_not_persisted :
    (add_context sampleState "notes" "hello" "text" "t1" sampleStore).1.context_data
        = [{ title := "notes", content := "hello", type := "text", added_at := "t1" }] ∧
    (add_context sampleState "notes" "hello" "text" "t1" sampleStore).2 = sampleStore := by
  exact ⟨rfl, rfl⟩

/-- C5 (amended): for every title, content, and type, `add_context`
appends exactly one context item and then exactly one system-role message
"Context - title:\ncontent", and whenever a session file is active the
addition is persisted: the active path afterwards holds the document of
the updated state. -/
theorem add_context_appends_and_saves (s : ChatState)
    (title content context_type now : String) (store : FileStore) :
    (add_context s title content context_type now store).1.context_data
        = s.context_data
            ++ [{ title := title, content := content, type := context_type, added_at := now }] ∧
    (add_context s title content context_type now store).1.messages
        = s.messages
            ++ [{ role := "system", content := "Context - " ++ title ++ ":\n" ++ content }] ∧
    (∀ fp, s.filepath = some fp →
      (add_context s title content context_type now store).2 fp
          = ReadResult.ok
              (docToJson (buildDoc (add_context s title content context_type now store).1 now))) := by
  refine ⟨?_, ?_, ?_⟩
  · simp only [add_context, add_message, or_true, if_true]
    split <;> rfl
  · simp only [add_context, add_message, or_true, if_true]
    split <;> rfl
  · intro fp hfp
    simp [add_context, add_message, hfp, saveToStore]

theorem add_context_appends_and_saves_witness :
    (add_context activeState "notes" "hello" "text" "t1" sampleStore).1.context_data
        = activeState.context_data
            ++ [{ title := "notes", content := "hello", type := "text", added_at := "t1" }] ∧
    (add_context activeState "notes" "hello" "text" "t1" sampleStore).2
        "conversations/default/a.json"
        = ReadResult.ok
            (docToJson (buildDoc (add_context activeState "notes" "hello" "text" "t1" sampleStore).1 "t1")) :=
  ⟨(add_context_appends_and_saves activeState "notes" "hello" "text" "t1" sampleStore).1,
   (add_context_appends_and_saves activeState "notes" "hello" "text" "t1" sampleStore).2.2
      "conversations/default/a.json" rfl⟩

/-- A text with two fenced regions, one tagged python and one untagged. -/
def sampleFencedText : String :=
  "Intro\n```python\nprint(1)\n```\nmiddle\n```\nplain text\n```\ntail"

/-- C6: on the two-region sample, `extract_code_blocks` returns exactly two
entries in document order, languages "python" then "text" (the untagged
default), with whitespace-trimmed code bodies; and with no text argument it
uses the most recent message only when its role is assistant, yielding an
empty result (not an error) for an empty transcript or a non-assistant
last message. -/
theorem extract_code_blocks_spec :
    (extract_code_blocks_text sampleFencedText
        = [{ language := "python", code := "print(1)" },
           { language := "text", code := "plain text" }]) ∧
    (∀ s : ChatState, s.messages = [] → extract_code_blocks s none = []) ∧
    (∀ (s : ChatState) (m : Message), s.messages.getLast? = some m →
        m.role ≠ "assistant" → extract_code_blocks s none = []) ∧
    (∀ (s : ChatState) (m : Message), s.messages.getLast? = some m →
        m.role = "assistant" →
        extract_code_blocks s none = extract_code_blocks_text m.content) := by
  refine ⟨by decide, ?_, ?_, ?_⟩
  · intro s h
    simp [extract_code_blocks, h]
  · intro s m hm hr
    simp [extract_code_blocks, hm, hr]
  · intro s m hm hr
    simp [extract_code_blocks, hm, hr]

theorem extract_code_blocks_spec_witness :
    extract_code_blocks
      { model := "m", conversations_dir := "conversations", project_name := none,
        messages := [{ role := "user", content := "```python\nx```" }],
        context_data := [], filepath := none, created_time := none } none = [] :=
  extract_code_blocks_spec.2.2.1
    { model := "m", conversations_dir := "conversations", project_name := none,
      messages := [{ role := "user", content := "```python\nx```" }],
      context_data := [], filepath := none, created_time := none }
    { role := "user", content := "```python\nx```" } rfl (by decide)

/-- A session with one matching assistant message and one matching user
message for the query "binary". -/
def searchState : ChatState :=
  { model := "m", conversations_dir := "conversations", project_name := none,
    messages := [{ role := "user", content := "please explain Binary search" },
                 { role := "assistant",
                   content := "binary search is a divide and conquer algorithm" }],
    context_data := [], filepath := none, created_time := none }

/-- C7: `search_messages` returns exactly the case-insensitive matches in
message order, restricted to the given role, each carrying its position,
role, full content, and the snippet of the first occurrence; the snippet
is bounded in width. Over a session with one matching assistant and one
matching user message, the role-restricted query "binary" returns exactly
the assistant result, whose snippet contains "binary"; without the role
restriction both matches appear in message order. -/
theorem search_messages_spec :
    (search_messages searchState "binary" (some "assistant")
        = [{ index := 1, role := "assistant",
             content := "binary search is a divide and conquer algorithm",
             snippet := "binary search is a divide and conquer algorithm" }]) ∧
    (∀ res ∈ search_messages searchState "binary" (some "assistant"),
        containsSub res.snippet "binary" = true) ∧
    ((search_messages searchState "binary" none).map (fun r => r.index) = [0, 1]) ∧
    (∀ (s : ChatState) (q r : String) (res : SearchResult),
        res ∈ search_messages s q (some r) →
        res.role = r ∧
        containsSub (pyLower res.content) (pyLower q) = true ∧
        s.messages[res.index]? = some { role := res.role, content := res.content } ∧
        res.snippet = get_search_snippet res.content q) ∧
    (∀ (s : ChatState) (q r : String) (i : Nat) (m : Message),
        s.messages[i]? = some m → m.role = r →
        containsSub (pyLower m.content) (pyLower q) = true →
        ({ index := i, role := m.role, content := m.content,
           snippet := get_search_snippet m.content q } : SearchResult)
          ∈ search_messages s q (some r)) ∧
    (∀ text q : String, (get_search_snippet text q).length ≤ 106) := by
  refine ⟨by decide, by decide, by decide, ?_, ?_, ?_⟩
  · intro s q r res hres
    rw [search_messages, List.mem_filterMap] at hres
    obtain ⟨im, him, hf⟩ := hres
    by_cases hc : (decide (im.2.role = r) && containsSub (pyLower im.2.content) (pyLower q)) = true
    · rw [if_pos hc] at hf
      obtain ⟨hrole, hsub⟩ := Bool.and_eq_true_iff.mp hc
      cases hf
      refine ⟨of_decide_eq_true hrole, hsub, ?_, rfl⟩
      rw [← List.mk_mem_enum_iff_getElem?]
      exact him
    · rw [if_neg hc] at hf
      cases hf
  · intro s q r i m hi hr hq
    rw [search_messages, List.mem_filterMap]
    refine ⟨(i, m), List.mk_mem_enum_iff_getElem?.mpr hi, ?_⟩
    rw [if_pos]
    rw [Bool.and_eq_true_iff]
    exact ⟨decide_eq_true hr, hq⟩
  · intro text q
    rw [get_search_snippet]
    cases hf : pyFind (pyLower text) (pyLower q) with
    | none =>
        have h1 : (text.toList.take 100).length ≤ 100 := by
          rw [List.length_take]; omega
        have h2 : ("..." : String).length = 3 := rfl
        simp only [String.length_append, String.length_mk]
        omega
    | some query_pos =>
        simp only
        have h1 : ((text.toList.take (min text.toList.length (query_pos + 50))).drop
            (query_pos - 50)).length ≤ 100 := by
          rw [List.length_drop, List.length_take]; omega
        have h2 : ("..." : String).length = 3 := rfl
        split <;> split <;>
          simp only [String.length_append, String.length_mk] <;> omega

theorem search_messages_spec_witness :
    ({ index := 1, role := "assistant",
       content := "binary search is a divide and conquer algorithm",
       snippet := get_search_snippet "binary search is a divide and conquer algorithm"
         "binary" } : SearchResult)
      ∈ search_messages searchState "binary" (some "assistant") :=
  search_messages_spec.2.2.2.2.1 searchState "binary" "assistant" 1
    { role := "assistant", content := "binary search is a divide and conquer algorithm" }
    rfl rfl (by decide)

theorem mem_insertByKeyDesc {a e : SessionEntry} {l : List SessionEntry} :
    a ∈ insertByKeyDesc e l ↔ a = e ∨ a ∈ l := by
  induction l with
  | nil => simp [insertByKeyDesc]
  | cons x xs ih =>
      rw [insertByKeyDesc]
      split
      · simp only [List.mem_cons, ih]
        tauto
      · simp only [List.mem_cons]

theorem length_insertByKeyDesc (e : SessionEntry) (l : List SessionEntry) :
    (insertByKeyDesc e l).length = l.length + 1 := by
  induction l with
  | nil => rfl
  | cons x xs ih =>
      rw [insertByKeyDesc]
      split
      · simp [ih]
      · simp

theorem mem_sortEntriesDesc {a : SessionEntry} {l : List SessionEntry} :
    a ∈ sortEntriesDesc l ↔ a ∈ l := by
  induction l with
  | nil => rfl
  | cons x xs ih =>
      rw [sortEntriesDesc, mem_insertByKeyDesc]
      simp [ih]

theorem length_sortEntriesDesc (l : List SessionEntry) :
    (sortEntriesDesc l).length = l.length := by
  induction l with
  | nil => rfl
  | cons x xs ih =>
      rw [sortEntriesDesc, length_insertByKeyDesc, ih, List.length_cons]

/-- C8: metadata-listing never drops a file: the result has one entry per
file; every file whose read or parse failed still contributes an entry
with its filename, empty metadata and the placeholder preview, and every
readable file contributes its parsed metadata and a preview of its last
message. -/
theorem list_sessions_meta_total (files : List (String × ReadResult)) :
    ((list_sessions_meta files).length = files.length) ∧
    (∀ fn e, (fn, ReadResult.fileError e) ∈ files →
        ({ filename := fn, metadata := none,
           preview := "Unable to load preview" } : SessionEntry)
          ∈ list_sessions_meta files) ∧
    (∀ fn data, (fn, ReadResult.ok data) ∈ files →
        ({ filename := fn, metadata := data.metadata,
           preview := get_session_preview (data.messages.getD []) } : SessionEntry)
          ∈ list_sessions_meta files) := by
  refine ⟨?_, ?_, ?_⟩
  · rw [list_sessions_meta, length_sortEntriesDesc, List.length_map]
  · intro fn e hmem
    rw [list_sessions_meta, mem_sortEntriesDesc]
    exact List.mem_map.mpr ⟨(fn, ReadResult.fileError e), hmem, rfl⟩
  · intro fn data hmem
    rw [list_sessions_meta, mem_sortEntriesDesc]
    exact List.mem_map.mpr ⟨(fn, ReadResult.ok data), hmem, rfl⟩

/-- A directory with one readable session file and one corrupt one. -/
def sampleListing : List (String × ReadResult) :=
  [("good.json", ReadResult.ok
      { metadata := some { model := some "m", last_modified := some "2024-01-02T00:00:00",
                           context_data := some [] },
        messages := some [{ role := "user", content := "hi" }] }),
   ("corrupt.json", ReadResult.fileError "invalid json")]

theorem list_sessions_meta_total_witness :
    (list_sessions_meta sampleListing).length = sampleListing.length ∧
    ({ filename := "corrupt.json", metadata := none,
       preview := "Unable to load preview" } : SessionEntry)
      ∈ list_sessions_meta sampleListing :=
  ⟨(list_sessions_meta_total sampleListing).1,
   (list_sessions_meta_total sampleListing).2.1 "corrupt.json" "invalid json" (by decide)⟩

/-- A session with 2 user messages, 1 assistant message, 1 system message. -/
def statsState : ChatState :=
  { model := "m", conversations_dir := "conversations", project_name := none,
    messages := [{ role := "user", content := "a" },
                 { role := "user", content := "bb" },
                 { role := "assistant", content := "ccc" },
                 { role := "system", content := "dddd" }],
    context_data := [], filepath := none, created_time := none }

/-- C9: `get_session_stats` returns the empty result for a session with no
messages; for a non-empty session it returns the total message count, the
per-role counts, the total character count over all contents, and the
context item count; on the 2-user/1-assistant/1-system sample those are
4, 2, 1 and 1. -/
theorem get_session_stats_spec :
    (∀ s : ChatState, s.messages = [] → get_session_stats s = none) ∧
    (∀ s : ChatState, s.messages ≠ [] →
        get_session_stats s = some
          { total_messages := s.messages.length,
            user_messages := (s.messages.filter fun m => m.role = "user").length,
            assistant_messages := (s.messages.filter fun m => m.role = "assistant").length,
            system_messages := (s.messages.filter fun m => m.role = "system").length,
            total_characters := (s.messages.map fun m => m.content.length).sum,
            context_items := s.context_data.length }) ∧
    (get_session_stats statsState = some
        { total_messages := 4, user_messages := 2, assistant_messages := 1,
          system_messages := 1, total_characters := 10, context_items := 0 }) := by
  refine ⟨?_, ?_, by decide⟩
  · intro s h
    simp [get_session_stats, h]
  · intro s h
    simp [get_session_stats, h]

theorem get_session_stats_spec_witness :
    get_session_stats sampleState = none :=
  get_session_stats_spec.1 sampleState rfl

theorem validRole_append {l : List Message} {m0 : Message}
    (h : ∀ m ∈ l, ValidRole m) (h0 : ValidRole m0) :
    ∀ m ∈ l ++ [m0], ValidRole m := by
  intro m hm
  rcases List.mem_append.mp hm with h1 | h1
  · exact h m h1
  · rw [List.mem_singleton.mp h1]
    exact h0

/-- C10: if every message's role is in the system/user/assistant whitelist,
then after `add_message` (any role argument), `add_context`,
`start_new_session`, or `send` (whatever the backend outcome), every
message's role is still in the whitelist. -/
theorem roles_whitelist_invariant (s : ChatState)
    (role content title context_type input now : String) (save : Bool)
    (system_prompt session_name : Option String) (backend : BackendResult)
    (store : FileStore)
    (h : ∀ m ∈ s.messages, ValidRole m) :
    (∀ m ∈ (add_message s role content save now store).1.messages, ValidRole m) ∧
    (∀ m ∈ (add_context s title content context_type now store).1.messages, ValidRole m) ∧
    (∀ m ∈ (start_new_session s system_prompt session_name now store).1.messages, ValidRole m) ∧
    (∀ m ∈ (send s input backend now store).1.messages, ValidRole m) := by
  refine ⟨?_, ?_, ?_, ?_⟩
  · by_cases hr : role = "user" ∨ role = "assistant" ∨ role = "system"
    · simp only [add_message, if_pos hr]
      split
      · exact validRole_append h (by unfold ValidRole; tauto)
      · exact validRole_append h (by unfold ValidRole; tauto)
    · simp only [add_message, if_neg hr]
      exact h
  · simp only [add_context, add_message, or_true, if_true]
    split
    · exact validRole_append h (Or.inl rfl)
    · exact validRole_append h (Or.inl rfl)
  · cases system_prompt with
    | none => simp [start_new_session]
    | some p => simp [start_new_session, add_message, ValidRole]
  · cases hfp : s.filepath with
    | none => simpa only [send, hfp] using h
    | some fp =>
        cases backend with
        | ok chunks =>
            simp only [send, hfp]
            exact validRole_append (validRole_append h (Or.inr (Or.inl rfl)))
              (Or.inr (Or.inr rfl))
        | respError e =>
            simp only [send, hfp]
            rw [rollbackUser_append_user]
            exact h
        | exnError e =>
            simp only [send, hfp]
            rw [rollbackUser_append_user]
            exact h

theorem roles_whitelist_invariant_witness :
    (∀ m ∈ (add_message activeState "robot" "x" true "t" sampleStore).1.messages, ValidRole m) ∧
    (∀ m ∈ (add_context activeState "n" "x" "text" "t" sampleStore).1.messages, ValidRole m) ∧
    (∀ m ∈ (start_new_session activeState (some "be brief") none "t" sampleStore).1.messages,
        ValidRole m) ∧
    (∀ m ∈ (send activeState "q" (BackendResult.exnError "down") "t" sampleStore).1.messages,
        ValidRole m) :=
  roles_whitelist_invariant activeState "robot" "x" "n" "text" "q" "t" true
    (some "be brief") none (BackendResult.exnError "down") sampleStore (by decide)
